import Mathlib

/-!
Verification of `src/server/tg.py` (class `TelegramDelivery`) against its
specification.

Embedding conventions:
* Timestamps and the health-check interval are integers counting seconds
  (`datetime.datetime.now()` and `total_seconds()` become `Int` values passed
  in explicitly; `do_health_check` calls `now()` twice, so it takes two time
  arguments `now` and `now2`, the second being the value stored into
  `last_health_check`).
* The outcome of a `requests` call together with `raise_for_status` is a value
  of `HttpResult`: `success` when no exception is raised, `failure e` when a
  transport error or `raise_for_status` raises an exception whose string
  representation is `e`.
* `sms.to_string()` may raise during serialization, so it is embedded as an
  `Except String String` stored in the `SMS` record.
* `self.health_logs` is `None` or a string in Python, hence `Option String`.
* Every operation returns, besides its Python return value and the updated
  object state, the list of HTTP requests it issued, so that "performs no
  network activity" is expressible as an empty request list.
* Python's `send_message` has no `return` statement in its `except` branch:
  it falls off the end and returns `None`.  Its return value is therefore
  embedded as `Option Bool`, with `none` standing for Python's `None`.
-/

/-- An SMS object as used by `send_message`: `get_id()` is a plain getter and
`to_string()` is the serialization, which may raise. -/
structure SMS where
  sms_id : String
  serialized : Except String String
deriving Repr

def SMS.get_id (s : SMS) : String := s.sms_id

def SMS.to_string (s : SMS) : Except String String := s.serialized

/-- Outcome of an HTTP call made via `requests` followed by
`raise_for_status()`: either no exception, or an exception rendering as `e`
(a transport error or a non-success status). -/
inductive HttpResult where
  | success : HttpResult
  | failure : String → HttpResult
deriving Repr, DecidableEq

/-- A JSON value, as far as the request bodies of this module need. -/
inductive Json where
  | str : String → Json
  | bool : Bool → Json
  | obj : List (String × Json) → Json
deriving Repr

/-- An HTTP request issued by the module: method, URL, optional JSON body. -/
structure HttpRequest where
  method : String
  url : String
  body : Option Json
deriving Repr

/-- The mutable state of a `TelegramDelivery` object (the logger is ignored:
logging has no observable effect on state, return values or requests). -/
structure TelegramDelivery where
  bot_token : String
  health_check_interval : Int
  last_health_check : Int
  health_state : String
  health_logs : Option String
deriving Repr

/-- `TelegramDelivery.__init__`: `last_health_check` is set to the current
time `now`, the health state to `"OK"` and the logs to `None`. -/
def TelegramDelivery.init (bot_token : String) (health_check_interval : Int)
    (now : Int) : TelegramDelivery :=
  { bot_token := bot_token
    health_check_interval := health_check_interval
    last_health_check := now
    health_state := "OK"
    health_logs := none }

def getMeUrl (token : String) : String :=
  "https://api.telegram.org/bot" ++ token ++ "/getMe"

def sendMessageUrl (token : String) : String :=
  "https://api.telegram.org/bot" ++ token ++ "/sendMessage"

/-- `get_health_state`: returns the cached pair, mutates nothing, issues no
request. -/
def TelegramDelivery.get_health_state (self : TelegramDelivery) :
    (String × Option String) × TelegramDelivery × List HttpRequest :=
  ((self.health_state, self.health_logs), self, [])

/-- `do_health_check`: if `(now - self.last_health_check).total_seconds() >=
self.health_check_interval`, store `now2` (a second `datetime.now()` call)
into `last_health_check`, issue `GET .../getMe` and set the health state from
its outcome; otherwise do nothing.  Returns the (possibly updated) cached
pair. -/
def TelegramDelivery.do_health_check (self : TelegramDelivery)
    (now now2 : Int) (probe : HttpResult) :
    (String × Option String) × TelegramDelivery × List HttpRequest :=
  if self.health_check_interval ≤ now - self.last_health_check then
    let self1 := { self with last_health_check := now2 }
    let req : HttpRequest :=
      { method := "GET", url := getMeUrl self.bot_token, body := none }
    match probe with
    | .success =>
        let self2 := { self1 with health_state := "OK", health_logs := none }
        ((self2.health_state, self2.health_logs), self2, [req])
    | .failure e =>
        let self2 := { self1 with
          health_state := "CRITICAL"
          health_logs :=
            some ("Failed to get information from Telegram server: " ++ e) }
        ((self2.health_state, self2.health_logs), self2, [req])
  else
    ((self.health_state, self.health_logs), self, [])

/-- The JSON body built by `send_message` for `POST .../sendMessage`. -/
def sendMessageBody (chat_id message_thread_id text : String) : Json :=
  Json.obj
    [("chat_id", Json.str chat_id),
     ("message_thread_id", Json.str message_thread_id),
     ("text", Json.str text),
     ("link_preview_options", Json.obj [("is_disabled", Json.bool true)])]

/-- `send_message`: serialize the SMS (`sms.to_string()` may raise), POST the
body, `raise_for_status()`, and on success set state `("OK", None)` and
return `True`.  Any exception inside the `try` block is caught: the state
becomes `("CRITICAL", "Failed to send Telegram message: " + e)` and the
function falls off its end, returning Python's `None` (embedded `none`). -/
def TelegramDelivery.send_message (self : TelegramDelivery)
    (chat_id message_thread_id : String) (sms : SMS) (net : HttpResult) :
    Option Bool × TelegramDelivery × List HttpRequest :=
  match sms.to_string with
  | .error e =>
      (none,
       { self with
         health_state := "CRITICAL"
         health_logs := some ("Failed to send Telegram message: " ++ e) },
       [])
  | .ok message =>
      let req : HttpRequest :=
        { method := "POST", url := sendMessageUrl self.bot_token,
          body := some (sendMessageBody chat_id message_thread_id message) }
      match net with
      | .success =>
          (some true,
           { self with health_state := "OK", health_logs := none },
           [req])
      | .failure e =>
          (none,
           { self with
             health_state := "CRITICAL"
             health_logs := some ("Failed to send Telegram message: " ++ e) },
           [req])

/-- States of a `TelegramDelivery` object reachable from construction by any
sequence of `do_health_check` and `send_message` calls. -/
inductive Reachable : TelegramDelivery → Prop where
  | init (bot_token : String) (interval now : Int) :
      Reachable (TelegramDelivery.init bot_token interval now)
  | health (s : TelegramDelivery) (now now2 : Int) (probe : HttpResult) :
      Reachable s → Reachable (s.do_health_check now now2 probe).2.1
  | send (s : TelegramDelivery) (chat_id thread_id : String) (sms : SMS)
      (net : HttpResult) :
      Reachable s → Reachable (s.send_message chat_id thread_id sms net).2.1

/-- A string starting with a nonempty prefix is nonempty. -/
theorem append_ne_empty_left (a b : String) (h : a ≠ "") : a ++ b ≠ "" := by
  intro hc
  apply h
  have hl := congrArg String.length hc
  rw [String.length_append, String.length_empty] at hl
  cases a with
  | mk d =>
    cases d with
    | nil => rfl
    | cons c cs => simp only [String.length_mk, List.length_cons] at hl; omega

/-- If the interval has not elapsed, `do_health_check` is a complete no-op
that returns the cached pair and issues no request. -/
theorem do_health_check_not_elapsed (s : TelegramDelivery) (now now2 : Int)
    (p : HttpResult) (h : now - s.last_health_check < s.health_check_interval) :
    s.do_health_check now now2 p = ((s.health_state, s.health_logs), s, []) := by
  unfold TelegramDelivery.do_health_check
  rw [if_neg (by omega)]

/-- Characterization of the `last_health_check` field after
`do_health_check`: it becomes `now2` exactly when the probe was performed,
for any probe outcome. -/
theorem do_health_check_last (s : TelegramDelivery) (now now2 : Int)
    (p : HttpResult) :
    (s.do_health_check now now2 p).2.1.last_health_check =
      if s.health_check_interval ≤ now - s.last_health_check then now2
      else s.last_health_check := by
  unfold TelegramDelivery.do_health_check
  by_cases hc : s.health_check_interval ≤ now - s.last_health_check
  · rw [if_pos hc, if_pos hc]
    cases p <;> rfl
  · rw [if_neg hc, if_neg hc]

/-- `send_message` changes only the two health fields: token, interval and
timestamp are untouched on every path. -/
theorem send_message_preserves_fields (s : TelegramDelivery)
    (chat_id thread_id : String) (sms : SMS) (net : HttpResult) :
    (s.send_message chat_id thread_id sms net).2.1.bot_token = s.bot_token ∧
    (s.send_message chat_id thread_id sms net).2.1.health_check_interval =
      s.health_check_interval ∧
    (s.send_message chat_id thread_id sms net).2.1.last_health_check =
      s.last_health_check := by
  unfold TelegramDelivery.send_message
  cases sms.to_string with
  | error e => exact ⟨rfl, rfl, rfl⟩
  | ok m => cases net <;> exact ⟨rfl, rfl, rfl⟩

/-- Claim C9: `get_health_state` returns the cached pair, mutates no field,
issues no HTTP request, and repeated calls without intervening operations
return the identical pair. -/
theorem c9_get_health_state_pure (s : TelegramDelivery) :
    s.get_health_state = ((s.health_state, s.health_logs), s, []) ∧
    s.get_health_state.2.1 = s ∧
    s.get_health_state.2.2 = [] ∧
    s.get_health_state.2.1.get_health_state.1 = s.get_health_state.1 := by
  refine ⟨rfl, rfl, rfl, rfl⟩

/-- Claim C10: `send_message` never changes `bot_token`,
`health_check_interval` or `last_health_check`, whatever its outcome; in
particular it does not touch the health-check gating timer. -/
theorem c10_send_preserves_config_and_timer (s : TelegramDelivery)
    (chat_id thread_id : String) (sms : SMS) (net : HttpResult) :
    (s.send_message chat_id thread_id sms net).2.1.bot_token = s.bot_token ∧
    (s.send_message chat_id thread_id sms net).2.1.health_check_interval =
      s.health_check_interval ∧
    (s.send_message chat_id thread_id sms net).2.1.last_health_check =
      s.last_health_check :=
  send_message_preserves_fields s chat_id thread_id sms net

/-- Claim C1 (code bug evidence): on a transport failure `send_message` does
set the health state to CRITICAL with a detail embedding the error, but its
`except` branch has no `return` statement, so the function returns Python's
`None` (embedded `none`) rather than the `False` promised by its docstring
and the spec. -/
theorem c1_send_error_returns_none_not_false :
    ((TelegramDelivery.init "token" 60 0).send_message "12345" "7"
        ⟨"sms-1", .ok "hello"⟩ (.failure "connection error")).1 = none ∧
    ((TelegramDelivery.init "token" 60 0).send_message "12345" "7"
        ⟨"sms-1", .ok "hello"⟩ (.failure "connection error")).1 ≠ some false ∧
    ((TelegramDelivery.init "token" 60 0).send_message "12345" "7"
        ⟨"sms-1", .ok "hello"⟩
        (.failure "connection error")).2.1.health_state = "CRITICAL" ∧
    ((TelegramDelivery.init "token" 60 0).send_message "12345" "7"
        ⟨"sms-1", .ok "hello"⟩
        (.failure "connection error")).2.1.health_logs =
      some "Failed to send Telegram message: connection error" := by
  refine ⟨rfl, by decide, rfl, rfl⟩

/-- Claim C5 (code bug evidence): `send_message` returns normally on every
input - every serialization or transport error is caught and converted into
the CRITICAL health state with a detail embedding the error - but on the
error path the converted result is `none` (Python `None`, the fall-off-the-end
value), not a boolean as the claim and the docstring state. -/
theorem c5_send_errors_caught (s : TelegramDelivery)
    (chat_id thread_id : String) (sms : SMS) (net : HttpResult) :
    (s.send_message chat_id thread_id sms net).1 = some true ∨
    ((s.send_message chat_id thread_id sms net).1 = none ∧
     (s.send_message chat_id thread_id sms net).2.1.health_state = "CRITICAL" ∧
     ∃ e, (s.send_message chat_id thread_id sms net).2.1.health_logs =
       some ("Failed to send Telegram message: " ++ e)) := by
  unfold TelegramDelivery.send_message
  cases hs : sms.to_string with
  | error e => exact Or.inr ⟨rfl, rfl, e, rfl⟩
  | ok m =>
    cases net with
    | success => exact Or.inl rfl
    | failure e => exact Or.inr ⟨rfl, rfl, e, rfl⟩

/-- Claim C4: when serialization succeeds and the dependency responds with
success (`raise_for_status` does not raise), `send_message` returns `True`
and sets the health state to `(OK, absent)`, whatever the previous state. -/
theorem c4_send_success (s : TelegramDelivery) (chat_id thread_id m : String)
    (sms : SMS) (h : sms.to_string = .ok m) :
    (s.send_message chat_id thread_id sms .success).1 = some true ∧
    (s.send_message chat_id thread_id sms .success).2.1.health_state = "OK" ∧
    (s.send_message chat_id thread_id sms .success).2.1.health_logs = none := by
  unfold TelegramDelivery.send_message
  rw [h]
  exact ⟨rfl, rfl, rfl⟩

/-- Closed instance of `c4_send_success`: a send from a previously CRITICAL
state succeeds, returns `True` and resets the state to `(OK, absent)`. -/
theorem c4_send_success_witness :
    (({ bot_token := "t", health_check_interval := 60, last_health_check := 0,
        health_state := "CRITICAL", health_logs := some "down" } :
        TelegramDelivery).send_message "12345" "7" ⟨"sms-1", .ok "hello"⟩
        .success).1 = some true ∧
    (({ bot_token := "t", health_check_interval := 60, last_health_check := 0,
        health_state := "CRITICAL", health_logs := some "down" } :
        TelegramDelivery).send_message "12345" "7" ⟨"sms-1", .ok "hello"⟩
        .success).2.1.health_state = "OK" ∧
    (({ bot_token := "t", health_check_interval := 60, last_health_check := 0,
        health_state := "CRITICAL", health_logs := some "down" } :
        TelegramDelivery).send_message "12345" "7" ⟨"sms-1", .ok "hello"⟩
        .success).2.1.health_logs = none :=
  c4_send_success _ "12345" "7" "hello" ⟨"sms-1", .ok "hello"⟩ rfl

/-- Claim C8: whenever `send_message` reaches the network call (serialization
succeeded), it issues exactly one request: a POST to the `sendMessage`
endpoint whose JSON body has exactly the four fields `chat_id`,
`message_thread_id`, `text` and `link_preview_options` (the last disabling
link previews). -/
theorem c8_send_request_body_fields (s : TelegramDelivery)
    (chat_id thread_id m : String) (sms : SMS) (net : HttpResult)
    (h : sms.to_string = .ok m) :
    (s.send_message chat_id thread_id sms net).2.2 =
      [{ method := "POST", url := sendMessageUrl s.bot_token,
         body := some (Json.obj
           [("chat_id", Json.str chat_id),
            ("message_thread_id", Json.str thread_id),
            ("text", Json.str m),
            ("link_preview_options",
             Json.obj [("is_disabled", Json.bool true)])]) }] := by
  unfold TelegramDelivery.send_message
  rw [h]
  cases net <;> rfl

/-- Closed instance of `c8_send_request_body_fields` at a concrete input. -/
theorem c8_send_request_body_fields_witness :
    ((TelegramDelivery.init "tok" 60 0).send_message "12345" "7"
        ⟨"sms-1", .ok "hello"⟩ .success).2.2 =
      [{ method := "POST", url := sendMessageUrl "tok",
         body := some (Json.obj
           [("chat_id", Json.str "12345"),
            ("message_thread_id", Json.str "7"),
            ("text", Json.str "hello"),
            ("link_preview_options",
             Json.obj [("is_disabled", Json.bool true)])]) }] :=
  c8_send_request_body_fields (TelegramDelivery.init "tok" 60 0) "12345" "7"
    "hello" ⟨"sms-1", .ok "hello"⟩ .success rfl

/-- Claim C2: if strictly less than the interval has elapsed since
`last_health_check`, `do_health_check` issues no request, mutates nothing and
returns the cached pair; consequently a second call still within the interval
window issues no request either and returns the same state as the first, so
the probe endpoint is contacted at most once (here: not at all). -/
theorem c2_health_check_within_interval_noop (s : TelegramDelivery)
    (now now2 nowB now2B : Int) (p pB : HttpResult)
    (h : now - s.last_health_check < s.health_check_interval) :
    s.do_health_check now now2 p = ((s.health_state, s.health_logs), s, []) ∧
    (nowB - s.last_health_check < s.health_check_interval →
      (s.do_health_check now now2 p).2.1.do_health_check nowB now2B pB =
        ((s.health_state, s.health_logs), s, [])) := by
  have h1 := do_health_check_not_elapsed s now now2 p h
  refine ⟨h1, fun hB => ?_⟩
  rw [h1]
  exact do_health_check_not_elapsed s nowB now2B pB hB

/-- Closed instance of `c2_health_check_within_interval_noop`: two calls at
50s and 60s against a 100s interval both leave the fresh state untouched. -/
theorem c2_health_check_within_interval_noop_witness :
    (TelegramDelivery.init "t" 100 0).do_health_check 50 50 .success =
      (("OK", none), TelegramDelivery.init "t" 100 0, []) ∧
    ((TelegramDelivery.init "t" 100 0).do_health_check 50 50
        .success).2.1.do_health_check 60 60 (.failure "x") =
      (("OK", none), TelegramDelivery.init "t" 100 0, []) := by
  have h := c2_health_check_within_interval_noop (TelegramDelivery.init "t" 100 0)
    50 50 60 60 .success (.failure "x") (by decide)
  exact ⟨h.1, h.2 (by decide)⟩

/-- Claim C3: when the interval has elapsed a probe is performed; the
returned pair always equals the updated state's pair, a successful probe
yields `(OK, absent)` (also recovering from a prior CRITICAL state), and a
failed probe yields `(CRITICAL, <non-empty detail embedding the error>)`. -/
theorem c3_health_check_probe_outcome (s : TelegramDelivery) (now now2 : Int)
    (p : HttpResult)
    (h : s.health_check_interval ≤ now - s.last_health_check) :
    (s.do_health_check now now2 p).1 =
      ((s.do_health_check now now2 p).2.1.health_state,
       (s.do_health_check now now2 p).2.1.health_logs) ∧
    (p = .success → (s.do_health_check now now2 p).1 = ("OK", none)) ∧
    (∀ e, p = .failure e →
      (s.do_health_check now now2 p).1 =
        ("CRITICAL",
         some ("Failed to get information from Telegram server: " ++ e)) ∧
      "Failed to get information from Telegram server: " ++ e ≠ "") := by
  unfold TelegramDelivery.do_health_check
  rw [if_pos h]
  cases p with
  | success =>
    exact ⟨rfl, fun _ => rfl, fun e he => HttpResult.noConfusion he⟩
  | failure e =>
    refine ⟨rfl, fun hs => HttpResult.noConfusion hs, fun e2 he => ?_⟩
    injection he with he2
    subst he2
    exact ⟨rfl, append_ne_empty_left _ _ (by decide)⟩

/-- Closed instance of `c3_health_check_probe_outcome`: a successful probe
recovers a CRITICAL adapter to `(OK, absent)`, and a failed probe on a fresh
adapter reports `(CRITICAL, detail)`. -/
theorem c3_health_check_probe_outcome_witness :
    (({ bot_token := "t", health_check_interval := 10, last_health_check := 0,
        health_state := "CRITICAL", health_logs := some "down" } :
        TelegramDelivery).do_health_check 20 20 .success).1 = ("OK", none) ∧
    ((TelegramDelivery.init "t" 10 0).do_health_check 20 20
        (.failure "timeout")).1 =
      ("CRITICAL",
       some ("Failed to get information from Telegram server: " ++ "timeout")) := by
  refine ⟨(c3_health_check_probe_outcome _ 20 20 .success (by decide)).2.1 rfl,
    ((c3_health_check_probe_outcome (TelegramDelivery.init "t" 10 0) 20 20
      (.failure "timeout") (by decide)).2.2 "timeout" rfl).1⟩

/-- Claim C7: `last_health_check` never decreases (given a non-negative
interval and the two `now()` readings in program order), is changed only by a
`do_health_check` call whose interval has elapsed (never by `send_message`),
and its new value does not depend on the probe's outcome, i.e. the timestamp
is written before the probe result is known. -/
theorem c7_last_health_check_update_discipline (s : TelegramDelivery)
    (now now2 : Int) (p pB : HttpResult) (chat_id thread_id : String)
    (sms : SMS) (net : HttpResult)
    (hi : 0 ≤ s.health_check_interval) (ht : now ≤ now2) :
    s.last_health_check ≤
      (s.do_health_check now now2 p).2.1.last_health_check ∧
    (now - s.last_health_check < s.health_check_interval →
      (s.do_health_check now now2 p).2.1.last_health_check =
        s.last_health_check) ∧
    (s.send_message chat_id thread_id sms net).2.1.last_health_check =
      s.last_health_check ∧
    (s.do_health_check now now2 p).2.1.last_health_check =
      (s.do_health_check now now2 pB).2.1.last_health_check := by
  rw [do_health_check_last, do_health_check_last]
  refine ⟨?_, ?_, (send_message_preserves_fields s chat_id thread_id sms net).2.2, rfl⟩
  · by_cases hc : s.health_check_interval ≤ now - s.last_health_check
    · rw [if_pos hc]; omega
    · rw [if_neg hc]
  · intro hlt
    rw [if_neg (by omega)]

/-- Closed instance of `c7_last_health_check_update_discipline` on a fresh
adapter with a 10s interval, probed at 20s. -/
theorem c7_last_health_check_update_discipline_witness :
    (TelegramDelivery.init "t" 10 0).last_health_check ≤
      ((TelegramDelivery.init "t" 10 0).do_health_check 20 21
        .success).2.1.last_health_check ∧
    ((TelegramDelivery.init "t" 10 0).send_message "c" "th"
        ⟨"sms-1", .ok "hello"⟩ .success).2.1.last_health_check =
      (TelegramDelivery.init "t" 10 0).last_health_check ∧
    ((TelegramDelivery.init "t" 10 0).do_health_check 20 21
        .success).2.1.last_health_check =
      ((TelegramDelivery.init "t" 10 0).do_health_check 20 21
        (.failure "x")).2.1.last_health_check := by
  have h := c7_last_health_check_update_discipline (TelegramDelivery.init "t" 10 0)
    20 21 .success (.failure "x") "c" "th" ⟨"sms-1", .ok "hello"⟩ .success
    (by decide) (by decide)
  exact ⟨h.1, h.2.2.1, h.2.2.2⟩

/-- Claim C6: in the initial state and every state reachable by any sequence
of `do_health_check` and `send_message` calls, the severity is `OK` or
`CRITICAL` (never `WARNING`), severity `OK` holds exactly when the detail is
absent, severity `CRITICAL` comes with a non-empty detail string, and a
freshly constructed adapter's `get_health_state` returns `(OK, absent)`. -/
theorem c6_health_state_invariant (s : TelegramDelivery) (h : Reachable s) :
    (s.health_state = "OK" ∨ s.health_state = "CRITICAL") ∧
    (s.health_state = "OK" ↔ s.health_logs = none) ∧
    (s.health_state = "CRITICAL" → ∃ m, s.health_logs = some m ∧ m ≠ "") ∧
    (∀ bot interval now,
      ((TelegramDelivery.init bot interval now).get_health_state).1 =
        ("OK", none)) := by
  induction h with
  | init bot interval now =>
    refine ⟨Or.inl rfl, by simp [TelegramDelivery.init], ?_, fun _ _ _ => rfl⟩
    intro hc
    simp [TelegramDelivery.init] at hc
  | health s now now2 probe hr ih =>
    by_cases hc : s.health_check_interval ≤ now - s.last_health_check
    · unfold TelegramDelivery.do_health_check
      rw [if_pos hc]
      cases probe with
      | success =>
        refine ⟨Or.inl rfl, by simp, ?_, fun _ _ _ => rfl⟩
        intro hcr
        simp at hcr
      | failure e =>
        refine ⟨Or.inr rfl, ?_, ?_, fun _ _ _ => rfl⟩
        · constructor
          · intro hcr; simp at hcr
          · intro hn; simp at hn
        · intro _
          exact ⟨_, rfl, append_ne_empty_left _ _ (by decide)⟩
    · rw [do_health_check_not_elapsed s now now2 probe (by omega)]
      exact ih
  | send s chat_id thread_id sms net hr ih =>
    unfold TelegramDelivery.send_message
    cases sms.to_string with
    | error e =>
      refine ⟨Or.inr rfl, ?_, ?_, fun _ _ _ => rfl⟩
      · constructor
        · intro hcr; simp at hcr
        · intro hn; simp at hn
      · intro _
        exact ⟨_, rfl, append_ne_empty_left _ _ (by decide)⟩
    | ok m =>
      cases net with
      | success =>
        refine ⟨Or.inl rfl, by simp, ?_, fun _ _ _ => rfl⟩
        intro hcr
        simp at hcr
      | failure e =>
        refine ⟨Or.inr rfl, ?_, ?_, fun _ _ _ => rfl⟩
        · constructor
          · intro hcr; simp at hcr
          · intro hn; simp at hn
        · intro _
          exact ⟨_, rfl, append_ne_empty_left _ _ (by decide)⟩

/-- Closed instance of `c6_health_state_invariant` at the reachable state
obtained by a failed probe followed by a successful send. -/
theorem c6_health_state_invariant_witness :
    ((((TelegramDelivery.init "t" 10 0).do_health_check 20 20
        (.failure "down")).2.1.send_message "c" "th" ⟨"sms-1", .ok "hi"⟩
        .success).2.1.health_state = "OK" ∨
     (((TelegramDelivery.init "t" 10 0).do_health_check 20 20
        (.failure "down")).2.1.send_message "c" "th" ⟨"sms-1", .ok "hi"⟩
        .success).2.1.health_state = "CRITICAL") ∧
    ((((TelegramDelivery.init "t" 10 0).do_health_check 20 20
        (.failure "down")).2.1.send_message "c" "th" ⟨"sms-1", .ok "hi"⟩
        .success).2.1.health_state = "OK" ↔
     (((TelegramDelivery.init "t" 10 0).do_health_check 20 20
        (.failure "down")).2.1.send_message "c" "th" ⟨"sms-1", .ok "hi"⟩
        .success).2.1.health_logs = none) ∧
    ((((TelegramDelivery.init "t" 10 0).do_health_check 20 20
        (.failure "down")).2.1.send_message "c" "th" ⟨"sms-1", .ok "hi"⟩
        .success).2.1.health_state = "CRITICAL" →
      ∃ m, (((TelegramDelivery.init "t" 10 0).do_health_check 20 20
        (.failure "down")).2.1.send_message "c" "th" ⟨"sms-1", .ok "hi"⟩
        .success).2.1.health_logs = some m ∧ m ≠ "") ∧
    (∀ bot interval now,
      ((TelegramDelivery.init bot interval now).get_health_state).1 =
        ("OK", none)) :=
  c6_health_state_invariant _
    (Reachable.send _ "c" "th" ⟨"sms-1", .ok "hi"⟩ .success
      (Reachable.health _ 20 20 (.failure "down")
        (Reachable.init "t" 10 0)))
